import Mathlib

/-!
Verification of the CivicaidAdmin dashboard's data-shaping logic.

The repository contains two variants of the `AdminDashboard` component:
the MUI variant (`src/AdminDashboard.tsx`), whose aggregation step also
resolves a reporter display name from a profiles table, and a plain
variant (`part_000`) whose aggregation computes vote tallies only.
Both are embedded below: the pure aggregation step of `fetchReports`,
the `filteredReports` selector, the local-state part of
`updateReportStatus`, and the set of status-action buttons rendered per
row.  Remote calls (supabase select/update) are outside the embedded
logic; their success or failure enters `updateReportStatus` as an
explicit parameter, and the fetched collections enter the aggregator as
ordinary list arguments.
-/

namespace Civicaid

/-- Type `ReportStatus` from `types/database`: "reported" | "in_progress" | "resolved". -/
inductive ReportStatus where
  | reported
  | in_progress
  | resolved
deriving DecidableEq, Repr

/-- Type `ReportCategory` from `types/database`. -/
inductive ReportCategory where
  | pothole
  | garbage
  | streetlight
  | drainage
  | water
  | noise
deriving DecidableEq, Repr

/-- Type `InteractionType` from `types/database`: "upvote" | "downvote". -/
inductive InteractionType where
  | upvote
  | downvote
deriving DecidableEq, Repr

/-- The `Report` row interface from `types/database`.  The geolocation
fields are `number | null` in the source; no claim touches their
arithmetic, so they are embedded as integers.  The `is_anonymous` flag
is read by the MUI variant (`report.is_anonymous`) and listed in the
spec's data model, although the checked-in `types/database` file (which
belongs to the plain variant) omits it. -/
structure Report where
  id : String
  user_id : String
  title : String
  description : Option String
  category : ReportCategory
  status : ReportStatus
  latitude : Option Int
  longitude : Option Int
  location_name : Option String
  photo_urls : Option (List String)
  eta_days : Option Int
  created_at : String
  updated_at : String
  is_anonymous : Bool
deriving DecidableEq, Repr

/-- The `ReportInteraction` row interface from `types/database`. -/
structure ReportInteraction where
  id : String
  report_id : String
  user_id : String
  interaction_type : InteractionType
  created_at : String
  updated_at : String
deriving DecidableEq, Repr

/-- The `Profile` row used by the MUI variant's `fetchReports`
(`profile.id`, `profile?.full_name`, `profile?.email`).  Its interface
declaration is absent from the checked-in sources; the field shape
follows the spec's data model ("identifier, optional full name, email")
and the accesses in `AdminDashboard.tsx`. -/
structure Profile where
  id : String
  full_name : Option String
  email : String
deriving DecidableEq, Repr

/-- Type `ReportWithVotes` of the MUI variant: a `Report` spread together
with the computed `upvotes`, `downvotes` and `reporter_name`. -/
structure ReportWithVotes extends Report where
  upvotes : Nat
  downvotes : Nat
  reporter_name : String
deriving DecidableEq, Repr

/-- Type `ReportWithVotes` of the plain variant (`types/database`): a
`Report` plus `upvotes` and `downvotes` only. -/
structure ReportWithVotesBasic extends Report where
  upvotes : Nat
  downvotes : Nat
deriving DecidableEq, Repr

/-- JavaScript string truthiness as used by the `||` chains in
`fetchReports`: `undefined`, `null` and `""` are falsy, every other
string is truthy.  `none` models undefined/null. -/
def strTruthy : Option String → Option String
  | none => none
  | some s => if s = "" then none else some s

/-- The `profilesMap` built in `fetchReports`: a `Map` populated by
`profilesMap.set(profile.id, profile)` over the profiles array, so a
later profile with the same id overwrites an earlier one.  Embedded as
the lookup function the finished map denotes. -/
def profilesMap (profilesData : List Profile) : String → Option Profile :=
  profilesData.foldl (fun m profile => fun k => if k = profile.id then some profile else m k)
    (fun _ => none)

/-- The body of the `map` callback in the MUI variant's `fetchReports`:
filter the interactions down to the report, count each interaction
type, resolve `reporter_name` ("Anonymous" when flagged, else
`profile?.full_name || profile?.email || "Unknown"`), and spread the
report into the enriched row. -/
def aggregateRow (interactionsData : List ReportInteraction)
    (profilesData : List Profile) (report : Report) : ReportWithVotes :=
  let reportInteractions := interactionsData.filter fun interaction =>
    decide (interaction.report_id = report.id)
  let upvotes := (reportInteractions.filter fun interaction =>
    decide (interaction.interaction_type = InteractionType.upvote)).length
  let downvotes := (reportInteractions.filter fun interaction =>
    decide (interaction.interaction_type = InteractionType.downvote)).length
  let reporter_name :=
    if report.is_anonymous then "Anonymous"
    else
      let profile := profilesMap profilesData report.user_id
      (Option.getD
        ((strTruthy (profile.bind Profile.full_name)).orElse
          (fun _ => strTruthy (Option.map Profile.email profile)))
        "Unknown")
  { toReport := report, upvotes := upvotes, downvotes := downvotes,
    reporter_name := reporter_name }

/-- The pure aggregation step of the MUI variant's `fetchReports`:
`reportsData.map` of `aggregateRow` over the fetched collections. -/
def reportsWithVotes (reportsData : List Report)
    (interactionsData : List ReportInteraction)
    (profilesData : List Profile) : List ReportWithVotes :=
  reportsData.map (aggregateRow interactionsData profilesData)

/-- The `map` callback of the plain variant's `fetchReports`
(`part_000`): vote tallies only, no profiles. -/
def aggregateRowBasic (interactionsData : List ReportInteraction)
    (report : Report) : ReportWithVotesBasic :=
  let reportInteractions := interactionsData.filter fun interaction =>
    decide (interaction.report_id = report.id)
  let upvotes := (reportInteractions.filter fun interaction =>
    decide (interaction.interaction_type = InteractionType.upvote)).length
  let downvotes := (reportInteractions.filter fun interaction =>
    decide (interaction.interaction_type = InteractionType.downvote)).length
  { toReport := report, upvotes := upvotes, downvotes := downvotes }

/-- The pure aggregation step of the plain variant's `fetchReports`. -/
def reportsWithVotesBasic (reportsData : List Report)
    (interactionsData : List ReportInteraction) : List ReportWithVotesBasic :=
  reportsData.map (aggregateRowBasic interactionsData)

/-- The status filter state: "all" or one of the three statuses. -/
inductive StatusFilter where
  | all
  | only (status : ReportStatus)
deriving DecidableEq, Repr

/-- The `filteredReports` selector (identical in both variants):
`statusFilter === "all" ? reports : reports.filter(r => r.status === statusFilter)`. -/
def filteredReports (statusFilter : StatusFilter)
    (reports : List ReportWithVotes) : List ReportWithVotes :=
  match statusFilter with
  | StatusFilter.all => reports
  | StatusFilter.only s => reports.filter fun report => decide (report.status = s)

/-- Result of `updateReportStatus`: the reports state after the call,
and whether the blocking `alert("Failed to update status")` fired. -/
structure UpdateOutcome where
  reports : List ReportWithVotes
  alerted : Bool
deriving DecidableEq, Repr

/-- Function `updateReportStatus` (identical in both variants), with the outcome
of the remote supabase update passed in explicitly: on a remote error
the catch branch alerts and leaves local state untouched; on success
`setReports` maps over the previous state, rewriting `status` and
`updated_at` for rows whose `id` matches and keeping every other row.
`now` stands for `new Date().toISOString()` at the time of the call. -/
def updateReportStatus (remoteError : Option String) (reportId : String)
    (newStatus : ReportStatus) (now : String)
    (prev : List ReportWithVotes) : UpdateOutcome :=
  match remoteError with
  | some _ => { reports := prev, alerted := true }
  | none =>
    { reports := prev.map fun report =>
        if report.id = reportId then
          { report with status := newStatus, updated_at := now }
        else report,
      alerted := false }

/-- The status-action buttons rendered for a row (both variants render
the same three conditionals): a button for each status other than the
row's current one. -/
def availableActions (status : ReportStatus) : List ReportStatus :=
  (if status ≠ ReportStatus.reported then [ReportStatus.reported] else []) ++
    (if status ≠ ReportStatus.in_progress then [ReportStatus.in_progress] else []) ++
      (if status ≠ ReportStatus.resolved then [ReportStatus.resolved] else [])

/-! Concrete fixtures, used to witness the theorems below.  `exReportA`
and `exInteractions` follow the spec's worked example: report "a" with
two upvote interactions and one downvote interaction. -/

/-- The spec example's report "a" (non-anonymous, owned by "u1"). -/
def exReportA : Report :=
  { id := "a", user_id := "u1", title := "Pothole on Main",
    description := some "deep pothole", category := ReportCategory.pothole,
    status := ReportStatus.reported, latitude := some 10, longitude := some 76,
    location_name := some "Main St", photo_urls := some ["p1.jpg"],
    eta_days := some 3, created_at := "2024-01-02T00:00:00Z",
    updated_at := "2024-01-02T00:00:00Z", is_anonymous := false }

/-- An anonymous report owned by the same user "u1". -/
def exReportAnon : Report :=
  { exReportA with id := "b", is_anonymous := true }

/-- The spec example's interactions: two upvotes and one downvote, all
referencing report "a". -/
def exInteractions : List ReportInteraction :=
  [ { id := "i1", report_id := "a", user_id := "v1",
      interaction_type := InteractionType.upvote,
      created_at := "t1", updated_at := "t1" },
    { id := "i2", report_id := "a", user_id := "v2",
      interaction_type := InteractionType.upvote,
      created_at := "t2", updated_at := "t2" },
    { id := "i3", report_id := "a", user_id := "v3",
      interaction_type := InteractionType.downvote,
      created_at := "t3", updated_at := "t3" } ]

/-- A profile for "u1" with a non-empty full name. -/
def pAlice : Profile :=
  { id := "u1", full_name := some "Alice Smith", email := "alice@example.com" }

/-- A profile for "u1" whose full name is the empty string. -/
def pBob : Profile :=
  { id := "u1", full_name := some "", email := "bob@example.com" }

/-- A profile for "u1" with empty full name and empty email. -/
def pBlank : Profile :=
  { id := "u1", full_name := some "", email := "" }

def exProfiles : List Profile := [pAlice]

/-- An aggregated row for report "a" (status "reported"). -/
def exRow1 : ReportWithVotes :=
  { toReport := exReportA, upvotes := 2, downvotes := 1,
    reporter_name := "Alice Smith" }

/-- A second report "b" (status "in_progress"). -/
def exReportB : Report :=
  { id := "b", user_id := "u2", title := "Garbage pileup",
    description := none, category := ReportCategory.garbage,
    status := ReportStatus.in_progress, latitude := none, longitude := none,
    location_name := none, photo_urls := none, eta_days := none,
    created_at := "2024-01-01T00:00:00Z",
    updated_at := "2024-01-01T00:00:00Z", is_anonymous := false }

/-- An aggregated row for the second report "b". -/
def exRow2 : ReportWithVotes :=
  { toReport := exReportB, upvotes := 0, downvotes := 0,
    reporter_name := "Anonymous" }

def exRows : List ReportWithVotes := [exRow1, exRow2]

/-- Length of a filter of a filter, as a single conjunctive count. -/
theorem length_filter_and {α : Type} (p q : α → Bool) (l : List α) :
    ((l.filter p).filter q).length = l.countP fun a => p a && q a := by
  simp [List.countP_eq_length_filter, List.filter_filter, Bool.and_comm]

/-- C1: the aggregator's output row for the report at any position has
`upvotes` equal to the number of interactions whose `report_id` matches
that report's `id` and whose `interaction_type` is "upvote", and
`downvotes` counted symmetrically for "downvote"; a report with no
matching interactions gets `upvotes = downvotes = 0`. -/
theorem aggregated_vote_counts (reportsData : List Report)
    (interactionsData : List ReportInteraction) (profilesData : List Profile)
    (n : Nat) (report : Report) (hn : reportsData[n]? = some report) :
    ∃ row, (reportsWithVotes reportsData interactionsData profilesData)[n]? = some row
      ∧ row.upvotes = interactionsData.countP
          (fun i => decide (i.report_id = report.id)
            && decide (i.interaction_type = InteractionType.upvote))
      ∧ row.downvotes = interactionsData.countP
          (fun i => decide (i.report_id = report.id)
            && decide (i.interaction_type = InteractionType.downvote))
      ∧ ((∀ i ∈ interactionsData, i.report_id ≠ report.id) →
          row.upvotes = 0 ∧ row.downvotes = 0) := by
  have hup : (aggregateRow interactionsData profilesData report).upvotes
      = interactionsData.countP
          (fun i => decide (i.report_id = report.id)
            && decide (i.interaction_type = InteractionType.upvote)) := by
    simp [aggregateRow, List.countP_eq_length_filter, List.filter_filter,
      Bool.and_comm]
  have hdown : (aggregateRow interactionsData profilesData report).downvotes
      = interactionsData.countP
          (fun i => decide (i.report_id = report.id)
            && decide (i.interaction_type = InteractionType.downvote)) := by
    simp [aggregateRow, List.countP_eq_length_filter, List.filter_filter,
      Bool.and_comm]
  refine ⟨aggregateRow interactionsData profilesData report, ?_, hup, hdown, ?_⟩
  · simp [reportsWithVotes, List.getElem?_map, hn]
  · intro h
    rw [hup, hdown]
    constructor <;>
      · rw [List.countP_eq_zero]
        intro i hi
        simp [h i hi]

/-- Witness for C1 at the spec's worked example: applying the theorem
to report "a" with its three interactions, and checking the resulting
tallies are upvotes = 2 and downvotes = 1. -/
theorem aggregated_vote_counts_witness :
    (∃ row, (reportsWithVotes [exReportA] exInteractions exProfiles)[0]? = some row
      ∧ row.upvotes = exInteractions.countP
          (fun i => decide (i.report_id = exReportA.id)
            && decide (i.interaction_type = InteractionType.upvote))
      ∧ row.downvotes = exInteractions.countP
          (fun i => decide (i.report_id = exReportA.id)
            && decide (i.interaction_type = InteractionType.downvote))
      ∧ ((∀ i ∈ exInteractions, i.report_id ≠ exReportA.id) →
          row.upvotes = 0 ∧ row.downvotes = 0))
    ∧ (aggregateRow exInteractions exProfiles exReportA).upvotes = 2
    ∧ (aggregateRow exInteractions exProfiles exReportA).downvotes = 1 :=
  ⟨aggregated_vote_counts [exReportA] exInteractions exProfiles 0 exReportA rfl,
    by decide, by decide⟩

/-- C2: when the report's `is_anonymous` flag is set, the aggregated
row's `reporter_name` is "Anonymous", whatever the profiles collection
contains. -/
theorem anonymous_reporter_name (interactionsData : List ReportInteraction)
    (profilesData : List Profile) (report : Report)
    (h : report.is_anonymous = true) :
    (aggregateRow interactionsData profilesData report).reporter_name = "Anonymous" := by
  simp [aggregateRow, h]

/-- Witness for C2: an anonymous report whose owner does have a profile
(with a full name) in the supplied collection still shows "Anonymous". -/
theorem anonymous_reporter_name_witness :
    exReportAnon.is_anonymous = true
    ∧ profilesMap exProfiles exReportAnon.user_id = some pAlice
    ∧ (aggregateRow exInteractions exProfiles exReportAnon).reporter_name = "Anonymous" :=
  ⟨rfl, by decide,
    anonymous_reporter_name exInteractions exProfiles exReportAnon rfl⟩

/-- C3: for a non-anonymous report, `reporter_name` comes from the
profile found under the report's `user_id`: its `full_name` when that
is set (present and non-empty), else its `email` when non-empty, and
"Unknown" when no profile exists or neither field resolves. -/
theorem reporter_name_resolution (interactionsData : List ReportInteraction)
    (profilesData : List Profile) (report : Report)
    (h : report.is_anonymous = false) :
    (profilesMap profilesData report.user_id = none →
      (aggregateRow interactionsData profilesData report).reporter_name = "Unknown")
    ∧ ∀ p, profilesMap profilesData report.user_id = some p →
        (∀ s, p.full_name = some s → s ≠ "" →
          (aggregateRow interactionsData profilesData report).reporter_name = s)
        ∧ ((p.full_name = none ∨ p.full_name = some "") → p.email ≠ "" →
          (aggregateRow interactionsData profilesData report).reporter_name = p.email)
        ∧ ((p.full_name = none ∨ p.full_name = some "") → p.email = "" →
          (aggregateRow interactionsData profilesData report).reporter_name = "Unknown") := by
  constructor
  · intro hnone
    simp [aggregateRow, h, hnone, strTruthy, Option.orElse]
  · intro p hp
    refine ⟨?_, ?_, ?_⟩
    · intro s hs hne
      simp [aggregateRow, h, hp, hs, strTruthy, hne, Option.orElse]
    · rintro (hfn | hfn) hem <;>
        simp [aggregateRow, h, hp, hfn, strTruthy, hem, Option.orElse]
    · rintro (hfn | hfn) hem <;>
        simp [aggregateRow, h, hp, hfn, strTruthy, hem, Option.orElse]

/-- Witness for C3: with a profile carrying a non-empty full name the
row shows that name, and with no profile at all it shows "Unknown". -/
theorem reporter_name_resolution_witness :
    (aggregateRow exInteractions exProfiles exReportA).reporter_name = "Alice Smith"
    ∧ (aggregateRow exInteractions [] exReportA).reporter_name = "Unknown" :=
  ⟨((reporter_name_resolution exInteractions exProfiles exReportA rfl).2 pAlice
      (by decide)).1 "Alice Smith" rfl (by decide),
    (reporter_name_resolution exInteractions [] exReportA rfl).1 rfl⟩

/-- C10: the fallback chain tests JavaScript truthiness, not mere
presence: a non-anonymous report whose profile has `full_name = ""`
falls through to the profile's email, and when the email is also empty
the name becomes "Unknown". -/
theorem empty_full_name_falls_through (interactionsData : List ReportInteraction)
    (profilesData : List Profile) (report : Report) (p : Profile)
    (h1 : report.is_anonymous = false)
    (h2 : profilesMap profilesData report.user_id = some p)
    (h3 : p.full_name = some "") :
    (p.email ≠ "" →
      (aggregateRow interactionsData profilesData report).reporter_name = p.email)
    ∧ (p.email = "" →
      (aggregateRow interactionsData profilesData report).reporter_name = "Unknown") := by
  constructor <;> intro hem <;>
    simp [aggregateRow, h1, h2, h3, strTruthy, hem, Option.orElse]

/-- Witness for C10: with `full_name = ""` and a non-empty email the
row shows the email; with both empty it shows "Unknown". -/
theorem empty_full_name_falls_through_witness :
    (aggregateRow exInteractions [pBob] exReportA).reporter_name = "bob@example.com"
    ∧ (aggregateRow exInteractions [pBlank] exReportA).reporter_name = "Unknown" :=
  ⟨(empty_full_name_falls_through exInteractions [pBob] exReportA pBob rfl
      (by decide) rfl).1 (by decide),
    (empty_full_name_falls_through exInteractions [pBlank] exReportA pBlank rfl
      (by decide) rfl).2 rfl⟩

/-- C4: filtering by a status value yields exactly the sublist (hence
in original order) of rows whose status equals that value — every kept
row has the status, every row with the status is kept, and the length
is the count of matching rows — while filtering by "all" returns the
list unmodified. -/
theorem status_filter_spec (reports : List ReportWithVotes) :
    filteredReports StatusFilter.all reports = reports
    ∧ ∀ s : ReportStatus,
        (filteredReports (StatusFilter.only s) reports).Sublist reports
        ∧ (∀ r ∈ filteredReports (StatusFilter.only s) reports, r.status = s)
        ∧ (∀ r ∈ reports, r.status = s → r ∈ filteredReports (StatusFilter.only s) reports)
        ∧ (filteredReports (StatusFilter.only s) reports).length
            = reports.countP fun r => decide (r.status = s) := by
  refine ⟨rfl, fun s => ⟨List.filter_sublist reports, ?_, ?_, ?_⟩⟩
  · intro r hr
    simpa using (List.mem_filter.mp hr).2
  · intro r hr hs
    exact List.mem_filter.mpr ⟨hr, by simp [hs]⟩
  · simp [filteredReports, List.countP_eq_length_filter]

/-- Witness for C4 on a concrete two-row list with distinct statuses:
the theorem applies, and the "reported" filter concretely returns just
the first row. -/
theorem status_filter_spec_witness :
    (filteredReports StatusFilter.all exRows = exRows
      ∧ (filteredReports (StatusFilter.only ReportStatus.reported) exRows).Sublist exRows)
    ∧ filteredReports (StatusFilter.only ReportStatus.reported) exRows = [exRow1]
    ∧ exRow1 ∈ filteredReports (StatusFilter.only ReportStatus.reported) exRows :=
  ⟨⟨(status_filter_spec exRows).1,
      ((status_filter_spec exRows).2 ReportStatus.reported).1⟩,
    by decide,
    ((status_filter_spec exRows).2 ReportStatus.reported).2.2.1 exRow1
      (by decide) rfl⟩

/-- C5: the aggregation step (both variants) is one output row per
input report, in input order, and each row's embedded report — every
original field — is the source report unchanged; only the computed
fields are added. -/
theorem aggregation_preserves_reports (reportsData : List Report)
    (interactionsData : List ReportInteraction) (profilesData : List Profile) :
    (reportsWithVotes reportsData interactionsData profilesData).length
        = reportsData.length
    ∧ (reportsWithVotesBasic reportsData interactionsData).length
        = reportsData.length
    ∧ (∀ n : Nat,
        ((reportsWithVotes reportsData interactionsData profilesData)[n]?).map
            ReportWithVotes.toReport = reportsData[n]?)
    ∧ (∀ n : Nat,
        ((reportsWithVotesBasic reportsData interactionsData)[n]?).map
            ReportWithVotesBasic.toReport = reportsData[n]?) := by
  refine ⟨by simp [reportsWithVotes], by simp [reportsWithVotesBasic],
    fun n => ?_, fun n => ?_⟩
  · rw [reportsWithVotes, List.getElem?_map]
    cases reportsData[n]? <;> rfl
  · rw [reportsWithVotesBasic, List.getElem?_map]
    cases reportsData[n]? <;> rfl

/-- C6: after a successful remote update, the local mirror touches only
rows whose `id` equals the given identifier — setting `status` to the
target and `updated_at` to the fresh timestamp — and every other row,
and every other field of the matching row, is unchanged; the list keeps
its length (and hence positions). -/
theorem update_status_local_frame (reportId : String) (newStatus : ReportStatus)
    (now : String) (prev : List ReportWithVotes) (n : Nat) (r : ReportWithVotes)
    (hget : prev[n]? = some r) :
    (updateReportStatus none reportId newStatus now prev).reports.length = prev.length
    ∧ (r.id ≠ reportId →
        (updateReportStatus none reportId newStatus now prev).reports[n]? = some r)
    ∧ (r.id = reportId → ∃ r',
        (updateReportStatus none reportId newStatus now prev).reports[n]? = some r'
        ∧ r'.status = newStatus ∧ r'.updated_at = now
        ∧ r'.id = r.id ∧ r'.user_id = r.user_id ∧ r'.title = r.title
        ∧ r'.description = r.description ∧ r'.category = r.category
        ∧ r'.latitude = r.latitude ∧ r'.longitude = r.longitude
        ∧ r'.location_name = r.location_name ∧ r'.photo_urls = r.photo_urls
        ∧ r'.eta_days = r.eta_days ∧ r'.created_at = r.created_at
        ∧ r'.is_anonymous = r.is_anonymous
        ∧ r'.upvotes = r.upvotes ∧ r'.downvotes = r.downvotes
        ∧ r'.reporter_name = r.reporter_name) := by
  refine ⟨by simp [updateReportStatus], ?_, ?_⟩
  · intro hne
    simp [updateReportStatus, List.getElem?_map, hget, hne]
  · intro heq
    refine ⟨{ r with status := newStatus, updated_at := now }, ?_, rfl, rfl,
      rfl, rfl, rfl, rfl, rfl, rfl, rfl, rfl, rfl, rfl, rfl, rfl, rfl, rfl, rfl⟩
    simp [updateReportStatus, List.getElem?_map, hget, heq]

/-- Witness for C6 on a concrete two-row list: updating row "a" leaves
row "b" untouched and rewrites exactly the status and timestamp of row
"a". -/
theorem update_status_local_frame_witness :
    (updateReportStatus none "a" ReportStatus.resolved "T2" exRows).reports[1]? = some exRow2
    ∧ (∃ r',
        (updateReportStatus none "a" ReportStatus.resolved "T2" exRows).reports[0]? = some r'
        ∧ r'.status = ReportStatus.resolved ∧ r'.updated_at = "T2"
        ∧ r'.id = exRow1.id ∧ r'.user_id = exRow1.user_id ∧ r'.title = exRow1.title
        ∧ r'.description = exRow1.description ∧ r'.category = exRow1.category
        ∧ r'.latitude = exRow1.latitude ∧ r'.longitude = exRow1.longitude
        ∧ r'.location_name = exRow1.location_name ∧ r'.photo_urls = exRow1.photo_urls
        ∧ r'.eta_days = exRow1.eta_days ∧ r'.created_at = exRow1.created_at
        ∧ r'.is_anonymous = exRow1.is_anonymous
        ∧ r'.upvotes = exRow1.upvotes ∧ r'.downvotes = exRow1.downvotes
        ∧ r'.reporter_name = exRow1.reporter_name) :=
  ⟨(update_status_local_frame "a" ReportStatus.resolved "T2" exRows 1 exRow2
      rfl).2.1 (by decide),
    (update_status_local_frame "a" ReportStatus.resolved "T2" exRows 0 exRow1
      rfl).2.2 rfl⟩

/-- C7: when the remote update fails, the catch branch fires the
blocking alert and the local reports state is exactly the previous
state — no element is modified. -/
theorem update_status_failure_no_change (e reportId : String)
    (newStatus : ReportStatus) (now : String) (prev : List ReportWithVotes) :
    (updateReportStatus (some e) reportId newStatus now prev).reports = prev
    ∧ (updateReportStatus (some e) reportId newStatus now prev).alerted = true :=
  ⟨rfl, rfl⟩

/-- C8: for every current status `s` and target `t` — including
`t = s` — the mutator accepts the transition and sets the matching
row's status to `t` with no legality check; self-transitions are
excluded only from the rendered action buttons, which offer exactly the
statuses different from the row's current one. -/
theorem no_transition_validation (s t : ReportStatus) (reportId now : String)
    (prev : List ReportWithVotes) (n : Nat) (r : ReportWithVotes)
    (hget : prev[n]? = some r) (hid : r.id = reportId) (hs : r.status = s) :
    (∃ r', (updateReportStatus none reportId t now prev).reports[n]? = some r'
        ∧ r'.status = t)
    ∧ (updateReportStatus none reportId t now prev).alerted = false
    ∧ (t ∈ availableActions s ↔ t ≠ s) := by
  refine ⟨⟨{ r with status := t, updated_at := now }, ?_, rfl⟩, rfl, ?_⟩
  · simp [updateReportStatus, List.getElem?_map, hget, hid]
  · cases s <;> cases t <;> decide

/-- Witness for C8: a self-transition — row "a" already has status
"reported" and is set to "reported" again — is accepted and applied,
while the "reported" button is absent from that row's actions. -/
theorem no_transition_validation_witness :
    (∃ r', (updateReportStatus none "a" ReportStatus.reported "T3" exRows).reports[0]? = some r'
        ∧ r'.status = ReportStatus.reported)
    ∧ (updateReportStatus none "a" ReportStatus.reported "T3" exRows).alerted = false
    ∧ (ReportStatus.reported ∈ availableActions ReportStatus.reported
        ↔ ReportStatus.reported ≠ ReportStatus.reported) :=
  no_transition_validation ReportStatus.reported ReportStatus.reported "a" "T3"
    exRows 0 exRow1 rfl rfl rfl

/-- C9: the aggregation step (both variants) is deterministic — equal
input collections produce equal output sequences; as a total function
of its arguments it has no side effects. -/
theorem aggregation_deterministic (reports1 reports2 : List Report)
    (inters1 inters2 : List ReportInteraction)
    (profiles1 profiles2 : List Profile)
    (hR : reports1 = reports2) (hI : inters1 = inters2)
    (hP : profiles1 = profiles2) :
    reportsWithVotes reports1 inters1 profiles1
        = reportsWithVotes reports2 inters2 profiles2
    ∧ reportsWithVotesBasic reports1 inters1
        = reportsWithVotesBasic reports2 inters2 := by
  subst hR; subst hI; subst hP
  exact ⟨rfl, rfl⟩

/-- Witness for C9 at the spec example's inputs. -/
theorem aggregation_deterministic_witness :
    reportsWithVotes [exReportA] exInteractions exProfiles
        = reportsWithVotes [exReportA] exInteractions exProfiles
    ∧ reportsWithVotesBasic [exReportA] exInteractions
        = reportsWithVotesBasic [exReportA] exInteractions :=
  aggregation_deterministic [exReportA] [exReportA] exInteractions
    exInteractions exProfiles exProfiles rfl rfl rfl

end Civicaid
